import Mathlib

/-!
Verification of the Empathy Engine core: emotion normalization
(`empathy_engine/emotion.py`), parameter modulation and interpolation
(`empathy_engine/service.py`), SSML composition (`empathy_engine/ssml.py`)
and the speech-driver state handling (`empathy_engine/speech.py`),
shallowly embedded in Lean.  Python floats are modelled as rationals,
Python ints as integers.
-/

/-! ## Python text primitives used by `EmotionDetector.detect` -/

/-- The characters Python's `str.strip` / `str.split` treat as whitespace. -/
def isPySpace (c : Char) : Bool :=
  c = ' ' || c = Char.ofNat 9 || c = Char.ofNat 10 || c = Char.ofNat 13 ||
  c = Char.ofNat 11 || c = Char.ofNat 12

/-- Python `str.strip()` on a character list. -/
def pyStripList (l : List Char) : List Char :=
  ((l.dropWhile isPySpace).reverse.dropWhile isPySpace).reverse

/-- Python `text.strip()`. -/
def pyStrip (s : String) : String := ⟨pyStripList s.toList⟩

/-- Python `str.split()` (split on whitespace runs, dropping empty chunks). -/
def splitChunks (l : List Char) : List (List Char) :=
  (l.foldr
    (fun c acc =>
      if isPySpace c then [] :: acc
      else
        match acc with
        | [] => [[c]]
        | w :: ws => (c :: w) :: ws)
    []).filter (fun w => w ≠ [])

/-- Python `" ".join(text.strip().split())`: collapse internal whitespace. -/
def pyClean (s : String) : String :=
  ⟨List.intercalate [' '] (splitChunks (pyStripList s.toList))⟩

/-- Python `str.lower()` (ASCII case folding suffices for the labels used). -/
def pyLower (s : String) : String := ⟨s.toList.map Char.toLower⟩

/-- Does `w` occur at the head of `s`? -/
def headMatches : List Char → List Char → Bool
  | [], _ => true
  | _ :: _, [] => false
  | a :: as, b :: bs => a = b && headMatches as bs

/-- Helper for `countOcc`: `skip` counts characters still covered by the
previous match (Python `str.count` counts non-overlapping occurrences). -/
def countOccAux (w : List Char) : List Char → Nat → Nat
  | [], _ => 0
  | _ :: rest, Nat.succ k => countOccAux w rest k
  | c :: rest, 0 =>
    if w ≠ [] && headMatches w (c :: rest) then
      1 + countOccAux w rest (w.length - 1)
    else
      countOccAux w rest 0

/-- Python `s.count(w)`: non-overlapping substring occurrences. -/
def countOcc (w s : List Char) : Nat := countOccAux w s 0

/-- `EMPHASIS_WORDS` from `emotion.py`. -/
def EMPHASIS_WORDS : List String := ["really", "very", "so", "extremely", "incredibly"]

/-- `sum(cleaned.lower().count(word) for word in EMPHASIS_WORDS)`. -/
def emphasisCount (cleaned : String) : Nat :=
  (EMPHASIS_WORDS.map (fun w => countOcc w.toList (pyLower cleaned).toList)).sum

/-- Python's banker's rounding (`round` with no digits) on a rational. -/
def ratFloor (q : ℚ) : ℤ := Int.fdiv q.num (q.den : ℤ)

/-- Python `round(x)` (round half to even). -/
def pyRound (q : ℚ) : ℤ :=
  let f := ratFloor q
  let r := q - (f : ℚ)
  if r < 1/2 then f
  else if 1/2 < r then f + 1
  else if f % 2 = 0 then f else f + 1

/-! ## Emotion data model (`emotion.py`) -/

/-- `EmotionLabel = Literal["positive", "neutral", "negative"]`. -/
inductive EmotionLabel where
  | positive
  | neutral
  | negative
deriving DecidableEq, Repr

/-- `EmotionResult` dataclass: a label plus an intensity (float as ℚ). -/
structure EmotionResult where
  label : EmotionLabel
  intensity : ℚ
deriving DecidableEq, Repr

/-! ## Hugging Face response model

The classifier contract: the remote service returns a JSON object
(possibly carrying an `"error"` field) or a JSON array whose elements are
either nested arrays of score objects or score objects directly.  A score
object may or may not carry `"label"` / `"score"` fields. -/

/-- A JSON object possibly holding `"label"` and `"score"` fields. -/
structure HFDict where
  label : Option String
  score : Option ℚ
deriving DecidableEq, Repr

/-- A non-array element of the response payload. -/
inductive HFLeaf where
  | obj (d : HFDict)
  | prim
deriving DecidableEq, Repr

/-- An element of the top-level response array. -/
inductive HFItem where
  | sub (inner : List HFLeaf)
  | leaf (l : HFLeaf)
deriving DecidableEq, Repr

/-- The decoded JSON body of the classifier response. -/
inductive HFData where
  | errorObj (msg : String)
  | arr (items : List HFItem)
deriving DecidableEq, Repr

/-- Errors raised by `detect`:  `classificationError` models the
`RuntimeError`s raised explicitly in `emotion.py` (the spec's
`ClassificationError`); `extractionError` models the `KeyError`/`TypeError`
a malformed score item raises inside the comprehension at line 116. -/
inductive DetectErr where
  | classificationError (msg : String)
  | extractionError
deriving DecidableEq, Repr

instance exceptDecEq {ε α : Type} [DecidableEq ε] [DecidableEq α] :
    DecidableEq (Except ε α) := fun a b =>
  match a, b with
  | .ok x, .ok y =>
    if h : x = y then .isTrue (congrArg Except.ok h)
    else .isFalse (fun hc => h (Except.ok.inj hc))
  | .error x, .error y =>
    if h : x = y then .isTrue (congrArg Except.error h)
    else .isFalse (fun hc => h (Except.error.inj hc))
  | .ok _, .error _ => .isFalse (fun hc => Except.noConfusion hc)
  | .error _, .ok _ => .isFalse (fun hc => Except.noConfusion hc)

/-- `item["label"].lower()` / `float(item["score"])` for one score object. -/
def extractLeaf : HFLeaf → Except DetectErr (String × ℚ)
  | .obj ⟨some l, some s⟩ => .ok (pyLower l, s)
  | _ => .error .extractionError

/-- Extraction from an element of the top-level array (a nested list is not
subscriptable by string, so it fails like a malformed dict). -/
def extractItem : HFItem → Except DetectErr (String × ℚ)
  | .sub _ => .error .extractionError
  | .leaf l => extractLeaf l

/-- The comprehension `{item["label"].lower(): float(item["score"]) ...}`
over a list of leaves. -/
def extractAllLeaves : List HFLeaf → Except DetectErr (List (String × ℚ))
  | [] => .ok []
  | x :: xs =>
    match extractLeaf x, extractAllLeaves xs with
    | .ok p, .ok ps => .ok (p :: ps)
    | .error e, _ => .error e
    | .ok _, .error e => .error e

/-- The same comprehension over the whole top-level array. -/
def extractAll : List HFItem → Except DetectErr (List (String × ℚ))
  | [] => .ok []
  | x :: xs =>
    match extractItem x, extractAll xs with
    | .ok p, .ok ps => .ok (p :: ps)
    | .error e, _ => .error e
    | .ok _, .error e => .error e

/-- Python dict lookup on the comprehension result: later entries overwrite
earlier ones, so look from the right. -/
def mapGet (m : List (String × ℚ)) (k : String) : Option ℚ :=
  (m.reverse.find? (fun q => q.1 == k)).map (fun q => q.2)

/-- `score_map.get(canonical) or score_map.get(fallback, 0.0)`
(`emotion.py` lines 119-121): Python `or` treats a present `0.0` as falsy
and falls through to the ordinal fallback. -/
def getScore (m : List (String × ℚ)) (canonical fallback : String) : ℚ :=
  match mapGet m canonical with
  | some s => if s = 0 then (mapGet m fallback).getD 0 else s
  | none => (mapGet m fallback).getD 0

/-- Winner selection (`emotion.py` lines 123-131). -/
def selectWinner (pos neu neg : ℚ) : EmotionLabel × ℚ :=
  if pos ≥ max neu neg then (.positive, pos)
  else if neg ≥ max pos neu then (.negative, neg)
  else (.neutral, neu)

/-- Shape handling of the decoded array (`emotion.py` lines 103-116):
an empty payload and an uninterpretable first item raise, a nested first
item supplies the scores, a labelled first dict means the array itself is
the score list. -/
def flatScores : List HFItem → Except DetectErr (List (String × ℚ))
  | [] => .error (.classificationError "Hugging Face API returned an empty response")
  | first :: rest =>
    match first with
    | .sub inner => extractAllLeaves inner
    | .leaf (.obj d) =>
      if d.label.isSome then extractAll (.leaf (.obj d) :: rest)
      else .error (.classificationError "Unexpected response format from Hugging Face API")
    | .leaf .prim =>
      .error (.classificationError "Unexpected response format from Hugging Face API")

/-- Scoring, winner selection and the punctuation/emphasis intensity bonus
(`emotion.py` lines 119-152). -/
def normalizeScores (score_map : List (String × ℚ)) (cleaned : String) : EmotionResult :=
  let positive_score := getScore score_map "positive" "label_2"
  let neutral_score := getScore score_map "neutral" "label_1"
  let negative_score := getScore score_map "negative" "label_0"
  let w := selectWinner positive_score neutral_score negative_score
  let exclamations : Nat := cleaned.toList.count '!'
  let question : Bool := cleaned.toList.contains '?'
  let emphasis_terms : Nat := emphasisCount cleaned
  let intensity_bonus : ℚ :=
    min (3/10)
      ((6 : ℚ)/100 * exclamations + (5 : ℚ)/100 * emphasis_terms +
        (if question then (3 : ℚ)/100 else 0))
  ⟨w.1, min 1 (w.2 + intensity_bonus)⟩

/-- `EmotionDetector.detect`, with the remote classifier passed in as a
function from the cleaned text to the decoded response body. -/
def detect (classify : String → HFData) (text : String) :
    Except DetectErr EmotionResult :=
  if text = "" ∨ pyStrip text = "" then .ok ⟨.neutral, 0⟩
  else
    match classify (pyClean text) with
    | .errorObj msg =>
      .error (.classificationError ("Hugging Face API error: " ++ msg))
    | .arr items =>
      match flatScores items with
      | .error e => .error e
      | .ok score_map => .ok (normalizeScores score_map (pyClean text))

/-! ## Claim C1 -/

/-- C1: for every input string that is empty or consists only of
whitespace, `detect` returns `⟨neutral, 0⟩` immediately, for every
classifier — hence without any external classification call. -/
theorem detect_blank_neutral (classify : String → HFData) (text : String)
    (h : text = "" ∨ pyStrip text = "") :
    detect classify text = .ok ⟨.neutral, 0⟩ := by
  unfold detect
  rw [if_pos h]

/-- A classifier that always fails, used to witness that blank input never
consults the classifier. -/
def failingClassify : String → HFData := fun _ => .errorObj "boom"

/-- Witness for C1 at the concrete whitespace input `"   "`. -/
theorem detect_blank_neutral_witness :
    ("   " = "" ∨ pyStrip "   " = "") ∧
      detect failingClassify "   " = .ok ⟨.neutral, 0⟩ :=
  ⟨Or.inr (by decide), detect_blank_neutral failingClassify "   " (Or.inr (by decide))⟩

/-! ## Claim C3: winner selection -/

/-- C3: the primary score is the maximum of the three class scores, and the
winning label follows the evaluation order of `emotion.py` lines 123-131:
positive wins any tie it is part of, negative beats neutral on a tie, and
neutral wins only when its score strictly dominates. -/
theorem selectWinner_spec (p n g : ℚ) :
    (selectWinner p n g).2 = max p (max n g) ∧
    ((n ≤ p ∧ g ≤ p) → selectWinner p n g = (.positive, p)) ∧
    (¬(n ≤ p ∧ g ≤ p) → (p ≤ g ∧ n ≤ g) → selectWinner p n g = (.negative, g)) ∧
    (¬(n ≤ p ∧ g ≤ p) → ¬(p ≤ g ∧ n ≤ g) → selectWinner p n g = (.neutral, n)) := by
  unfold selectWinner
  split_ifs with h1 h2
  · rw [ge_iff_le, max_le_iff] at h1
    refine ⟨?_, fun _ => rfl, fun hc _ => absurd ⟨h1.1, h1.2⟩ hc,
      fun hc _ => absurd ⟨h1.1, h1.2⟩ hc⟩
    exact (max_eq_left (max_le h1.1 h1.2)).symm
  · rw [ge_iff_le, max_le_iff] at h1 h2
    refine ⟨?_, fun hc => absurd hc h1, fun _ _ => rfl,
      fun _ hc => absurd ⟨h2.1, h2.2⟩ hc⟩
    show g = max p (max n g)
    rw [max_eq_right h2.2, max_eq_right h2.1]
  · rw [ge_iff_le, max_le_iff] at h1 h2
    refine ⟨?_, fun hc => absurd hc h1, fun _ hc => absurd hc h2, fun _ _ => rfl⟩
    have hn : p ≤ n ∧ g ≤ n := by
      rcases not_and_or.mp h1 with hp | hp <;> rcases not_and_or.mp h2 with hg | hg <;>
        push_neg at hp hg <;> constructor <;> linarith
    show n = max p (max n g)
    rw [max_eq_left hn.2, max_eq_right hn.1]

/-- Witness for C3: a positive/neutral tie goes to positive, a
negative/neutral tie (with positive below) goes to negative. -/
theorem selectWinner_spec_witness :
    selectWinner 1 1 0 = (.positive, 1) ∧ selectWinner 0 1 1 = (.negative, 1) :=
  ⟨(selectWinner_spec 1 1 0).2.1 ⟨by norm_num, by norm_num⟩,
   (selectWinner_spec 0 1 1).2.2.1 (by norm_num) ⟨by norm_num, by norm_num⟩⟩

/-! ## Claim C6: interpolation (`EmpathyEngine._interpolate`) -/

/-- `EmpathyEngine._interpolate`: `start + (end - start) * intensity`. -/
def interpolate (delta_range : ℚ × ℚ) (intensity : ℚ) : ℚ :=
  delta_range.1 + (delta_range.2 - delta_range.1) * intensity

/-- C6: interpolation hits the endpoints at intensities 0 and 1, is
monotone in the intensity when `hi ≥ lo`, and antitone when `hi < lo`. -/
theorem interpolate_spec (lo hi : ℚ) :
    interpolate (lo, hi) 0 = lo ∧ interpolate (lo, hi) 1 = hi ∧
    ∀ i j : ℚ, 0 ≤ i → i ≤ j → j ≤ 1 →
      ((lo ≤ hi → interpolate (lo, hi) i ≤ interpolate (lo, hi) j) ∧
       (hi < lo → interpolate (lo, hi) j ≤ interpolate (lo, hi) i)) := by
  refine ⟨by unfold interpolate; ring, by unfold interpolate; ring, ?_⟩
  intro i j h0 hij h1
  constructor <;> intro hlh <;> unfold interpolate
  · linarith [mul_le_mul_of_nonneg_left hij (sub_nonneg.mpr hlh)]
  · linarith [mul_le_mul_of_nonpos_left hij (by linarith : hi - lo ≤ 0)]

/-- Witness for C6 on the concrete ranges `(2, 5)` and `(5, 2)`. -/
theorem interpolate_spec_witness :
    interpolate ((2 : ℚ), 5) (1/4) ≤ interpolate ((2 : ℚ), 5) (1/2) ∧
    interpolate ((5 : ℚ), 2) (1/2) ≤ interpolate ((5 : ℚ), 2) (1/4) :=
  ⟨((interpolate_spec 2 5).2.2 (1/4) (1/2) (by norm_num) (by norm_num)
      (by norm_num)).1 (by norm_num),
   ((interpolate_spec 5 2).2.2 (1/4) (1/2) (by norm_num) (by norm_num)
      (by norm_num)).2 (by norm_num)⟩

/-! ## Claim C10: canonical score of exactly zero falls back -/

/-- A classifier whose payload maps `"positive"` to exactly `0.0` while an
ordinal `LABEL_2` entry carries the real score. -/
def zeroPosClassify : String → HFData := fun _ =>
  .arr
    [ .leaf (.obj ⟨some "positive", some 0⟩),
      .leaf (.obj ⟨some "neutral", some (mkRat 1 10)⟩),
      .leaf (.obj ⟨some "negative", some (mkRat 2 10)⟩),
      .leaf (.obj ⟨some "LABEL_2", some (mkRat 9 10)⟩) ]

/-- C10: a canonical label whose score is exactly `0.0` is treated as
missing — the `or` chain of `emotion.py` lines 119-121 substitutes the
ordinal fallback score (defaulting to `0.0`); concretely, `detect` then
classifies via the `label_2` score `0.9` rather than the canonical `0.0`. -/
theorem getScore_zero_fallback :
    (∀ (m : List (String × ℚ)) (canonical fallback : String),
        mapGet m canonical = some 0 →
        getScore m canonical fallback = (mapGet m fallback).getD 0) ∧
    detect zeroPosClassify "okay" = .ok ⟨.positive, 9/10⟩ := by
  constructor
  · intro m c f h
    unfold getScore
    rw [h]
    simp
  · have hdetect : detect zeroPosClassify "okay" =
        .ok (normalizeScores
          [("positive", 0), ("neutral", mkRat 1 10),
            ("negative", mkRat 2 10), ("label_2", mkRat 9 10)] "okay") := by
      unfold detect
      rw [if_neg (by decide), show pyClean "okay" = "okay" from by decide]
      rfl
    rw [hdetect]
    simp only [normalizeScores]
    rw [show getScore
          [("positive", 0), ("neutral", mkRat 1 10),
            ("negative", mkRat 2 10), ("label_2", mkRat 9 10)] "positive" "label_2" =
        mkRat 9 10 from by decide,
      show getScore
          [("positive", 0), ("neutral", mkRat 1 10),
            ("negative", mkRat 2 10), ("label_2", mkRat 9 10)] "neutral" "label_1" =
        mkRat 1 10 from by decide,
      show getScore
          [("positive", 0), ("neutral", mkRat 1 10),
            ("negative", mkRat 2 10), ("label_2", mkRat 9 10)] "negative" "label_0" =
        mkRat 2 10 from by decide,
      show selectWinner (mkRat 9 10) (mkRat 1 10) (mkRat 2 10) =
        (.positive, mkRat 9 10) from by decide,
      show "okay".toList.count '!' = 0 from by decide,
      show "okay".toList.contains '?' = false from by decide,
      show emphasisCount "okay" = 0 from by decide]
    norm_num [Rat.mkRat_eq_div]

/-- Witness for C10 on a concrete two-entry score map. -/
theorem getScore_zero_fallback_witness :
    mapGet [("positive", (0 : ℚ)), ("label_2", 7/10)] "positive" = some 0 ∧
    getScore [("positive", (0 : ℚ)), ("label_2", 7/10)] "positive" "label_2" =
      (mapGet [("positive", (0 : ℚ)), ("label_2", 7/10)] "label_2").getD 0 :=
  ⟨by decide, getScore_zero_fallback.1 _ "positive" "label_2" (by decide)⟩

/-! ## Claim C2: malformed classifier responses raise -/

/-- The response bodies the claim enumerates: an application-level error
object, an empty result, or a first element that is neither a score list
nor a labelled score object. -/
def badShape : HFData → Bool
  | .errorObj _ => true
  | .arr [] => true
  | .arr (first :: _) =>
    match first with
    | .sub _ => false
    | .leaf (.obj d) => d.label.isNone
    | .leaf .prim => true

/-- C2: whenever the classifier returns an error object, an empty result,
or a payload whose first element cannot be interpreted as score data,
`detect` raises the classification error and never returns a result. -/
theorem detect_bad_response_raises (classify : String → HFData) (text : String)
    (h1 : ¬(text = "" ∨ pyStrip text = ""))
    (h2 : badShape (classify (pyClean text)) = true) :
    ∃ msg, detect classify text = .error (.classificationError msg) := by
  unfold detect
  rw [if_neg h1]
  revert h2
  cases hd : classify (pyClean text) with
  | errorObj msg => exact fun _ => ⟨_, rfl⟩
  | arr items =>
    intro h2
    cases items with
    | nil => exact ⟨_, rfl⟩
    | cons first rest =>
      cases first with
      | sub inner => simp [badShape] at h2
      | leaf l =>
        cases l with
        | obj d =>
          cases d with
          | mk lab sc =>
            cases lab with
            | some s => simp [badShape] at h2
            | none => exact ⟨_, rfl⟩
        | prim => exact ⟨_, rfl⟩

/-- A classifier that returns an empty result. -/
def emptyClassify : String → HFData := fun _ => .arr []

/-- Witness for C2 at the nonblank input `"hi"` and an empty response. -/
theorem detect_bad_response_raises_witness :
    (¬("hi" = "" ∨ pyStrip "hi" = "")) ∧
    badShape (emptyClassify (pyClean "hi")) = true ∧
    ∃ msg, detect emptyClassify "hi" = .error (.classificationError msg) :=
  ⟨by decide, by decide,
   detect_bad_response_raises emptyClassify "hi" (by decide) (by decide)⟩

/-! ## Claim C4: intensity bounds -/

/-- Score nonnegativity of one payload leaf. -/
def leafNonneg : HFLeaf → Bool
  | .obj d =>
    match d.score with
    | some s => decide (0 ≤ s)
    | none => true
  | .prim => true

/-- Score nonnegativity of one top-level payload item. -/
def itemNonneg : HFItem → Bool
  | .sub inner => inner.all leafNonneg
  | .leaf l => leafNonneg l

/-- All scores appearing in the payload are nonnegative. -/
def dataNonneg : HFData → Bool
  | .errorObj _ => true
  | .arr items => items.all itemNonneg

lemma mapGet_val_mem {m : List (String × ℚ)} {k : String} {v : ℚ}
    (h : mapGet m k = some v) : ∃ a ∈ m, a.2 = v := by
  unfold mapGet at h
  rcases Option.map_eq_some'.mp h with ⟨a, ha, hv⟩
  exact ⟨a, List.mem_reverse.mp (List.mem_of_find?_eq_some ha), hv⟩

lemma getScore_nonneg {m : List (String × ℚ)} (hm : ∀ a ∈ m, 0 ≤ a.2)
    (c f : String) : 0 ≤ getScore m c f := by
  have hfb : 0 ≤ (mapGet m f).getD 0 := by
    cases hf : mapGet m f with
    | none => simp
    | some v =>
      rcases mapGet_val_mem hf with ⟨a, ha, hv⟩
      simpa [hv] using hm a ha
  unfold getScore
  cases hc : mapGet m c with
  | none => exact hfb
  | some s =>
    by_cases hs : s = 0
    · simpa [hs] using hfb
    · rcases mapGet_val_mem hc with ⟨a, ha, hv⟩
      simpa [hs, hv] using hm a ha

lemma extractLeaf_nonneg {l : HFLeaf} {p : String × ℚ}
    (hl : leafNonneg l = true) (h : extractLeaf l = .ok p) : 0 ≤ p.2 := by
  cases l with
  | prim => exact absurd h (by simp [extractLeaf])
  | obj d =>
    cases d with
    | mk lab sc =>
      cases lab with
      | none => exact absurd h (by simp [extractLeaf])
      | some labv =>
        cases sc with
        | none => exact absurd h (by simp [extractLeaf])
        | some s =>
          have : p = (pyLower labv, s) := by
            simpa [extractLeaf] using h.symm
          rw [this]
          simpa [leafNonneg] using hl

lemma extractAllLeaves_nonneg : ∀ {ls : List HFLeaf} {m : List (String × ℚ)},
    ls.all leafNonneg = true → extractAllLeaves ls = .ok m → ∀ a ∈ m, 0 ≤ a.2 := by
  intro ls
  induction ls with
  | nil =>
    intro m _ h a ha
    simp only [extractAllLeaves] at h
    cases h
    simp at ha
  | cons x xs ih =>
    intro m hall h a ha
    simp only [List.all_cons, Bool.and_eq_true] at hall
    simp only [extractAllLeaves] at h
    revert h
    cases hx : extractLeaf x with
    | error e => intro h; cases h
    | ok p =>
      cases hxs : extractAllLeaves xs with
      | error e => intro h; cases h
      | ok ps =>
        intro h
        cases h
        rcases List.mem_cons.mp ha with rfl | hmem
        · exact extractLeaf_nonneg hall.1 hx
        · exact ih hall.2 hxs a hmem

lemma extractAll_nonneg : ∀ {ls : List HFItem} {m : List (String × ℚ)},
    ls.all itemNonneg = true → extractAll ls = .ok m → ∀ a ∈ m, 0 ≤ a.2 := by
  intro ls
  induction ls with
  | nil =>
    intro m _ h a ha
    simp only [extractAll] at h
    cases h
    simp at ha
  | cons x xs ih =>
    intro m hall h a ha
    simp only [List.all_cons, Bool.and_eq_true] at hall
    simp only [extractAll] at h
    revert h
    cases hx : extractItem x with
    | error e => intro h; cases h
    | ok p =>
      cases hxs : extractAll xs with
      | error e => intro h; cases h
      | ok ps =>
        intro h
        cases h
        rcases List.mem_cons.mp ha with rfl | hmem
        · cases x with
          | sub inner => exact absurd hx (by simp [extractItem])
          | leaf l => exact extractLeaf_nonneg hall.1 hx
        · exact ih hall.2 hxs a hmem

lemma flatScores_nonneg {items : List HFItem} {m : List (String × ℚ)}
    (hn : items.all itemNonneg = true) (h : flatScores items = .ok m) :
    ∀ a ∈ m, 0 ≤ a.2 := by
  cases items with
  | nil => cases h
  | cons first rest =>
    simp only [List.all_cons, Bool.and_eq_true] at hn
    cases first with
    | sub inner =>
      exact extractAllLeaves_nonneg (by simpa [itemNonneg] using hn.1) h
    | leaf l =>
      cases l with
      | obj d =>
        revert h
        simp only [flatScores]
        cases hd : d.label.isSome with
        | false => intro h; cases h
        | true =>
          intro h
          exact extractAll_nonneg (by simp [List.all_cons, hn.1, hn.2]) h
      | prim => cases h

lemma selectWinner_snd (p n g : ℚ) :
    (selectWinner p n g).2 = p ∨ (selectWinner p n g).2 = n ∨
      (selectWinner p n g).2 = g := by
  unfold selectWinner
  split_ifs <;> simp

lemma normalizeScores_intensity_bounds {m : List (String × ℚ)}
    (hm : ∀ a ∈ m, 0 ≤ a.2) (cleaned : String) :
    0 ≤ (normalizeScores m cleaned).intensity ∧
      (normalizeScores m cleaned).intensity ≤ 1 := by
  have hw : 0 ≤ (selectWinner (getScore m "positive" "label_2")
      (getScore m "neutral" "label_1") (getScore m "negative" "label_0")).2 := by
    rcases selectWinner_snd (getScore m "positive" "label_2")
        (getScore m "neutral" "label_1") (getScore m "negative" "label_0") with
      h | h | h <;> rw [h] <;> exact getScore_nonneg hm _ _
  have hb : 0 ≤ min ((3 : ℚ)/10)
      ((6 : ℚ)/100 * (cleaned.toList.count '!') +
        (5 : ℚ)/100 * (emphasisCount cleaned) +
        (if cleaned.toList.contains '?' then (3 : ℚ)/100 else 0)) := by
    apply le_min
    · norm_num
    · have h1 : (0 : ℚ) ≤ (6 : ℚ)/100 * (cleaned.toList.count '!') := by positivity
      have h2 : (0 : ℚ) ≤ (5 : ℚ)/100 * (emphasisCount cleaned) := by positivity
      have h3 : (0 : ℚ) ≤ (if cleaned.toList.contains '?' then (3 : ℚ)/100 else 0) := by
        split_ifs <;> norm_num
      linarith
  simp only [normalizeScores]
  constructor
  · exact le_min (by norm_num) (by linarith)
  · exact min_le_left _ _

/-- A classifier returning a negative score for every class. -/
def negClassify : String → HFData := fun _ =>
  .arr
    [ .leaf (.obj ⟨some "positive", some (mkRat (-1) 1)⟩),
      .leaf (.obj ⟨some "neutral", some (mkRat (-1) 1)⟩),
      .leaf (.obj ⟨some "negative", some (mkRat (-1) 1)⟩) ]

/-- Counterexample to C4 as stated: `detect` accepts a payload whose scores
are `-1.0` and returns an `EmotionResult` with intensity `-1 ∉ [0, 1]`
(the code caps the intensity above at `1` but never below at `0`). -/
theorem detect_intensity_negative_cex :
    detect negClassify "hello" = .ok ⟨.positive, mkRat (-1) 1⟩ ∧
    ¬ (0 ≤ (EmotionResult.mk .positive (mkRat (-1) 1)).intensity) := by
  constructor
  · have hdetect : detect negClassify "hello" =
        .ok (normalizeScores
          [("positive", mkRat (-1) 1), ("neutral", mkRat (-1) 1),
            ("negative", mkRat (-1) 1)] "hello") := by
      unfold detect
      rw [if_neg (by decide), show pyClean "hello" = "hello" from by decide]
      rfl
    rw [hdetect]
    simp only [normalizeScores]
    rw [show getScore
          [("positive", mkRat (-1) 1), ("neutral", mkRat (-1) 1),
            ("negative", mkRat (-1) 1)] "positive" "label_2" =
        mkRat (-1) 1 from by decide,
      show getScore
          [("positive", mkRat (-1) 1), ("neutral", mkRat (-1) 1),
            ("negative", mkRat (-1) 1)] "neutral" "label_1" =
        mkRat (-1) 1 from by decide,
      show getScore
          [("positive", mkRat (-1) 1), ("neutral", mkRat (-1) 1),
            ("negative", mkRat (-1) 1)] "negative" "label_0" =
        mkRat (-1) 1 from by decide,
      show selectWinner (mkRat (-1) 1) (mkRat (-1) 1) (mkRat (-1) 1) =
        (.positive, mkRat (-1) 1) from by decide,
      show "hello".toList.count '!' = 0 from by decide,
      show "hello".toList.contains '?' = false from by decide,
      show emphasisCount "hello" = 0 from by decide]
    norm_num [Rat.mkRat_eq_div]
  · norm_num [Rat.mkRat_eq_div]

/-- C4 amended: whenever every score carried by the accepted payload is
nonnegative (as genuine classifier probabilities are), the intensity of the
returned `EmotionResult` lies in `[0, 1]`; the upper bound needs no
hypothesis, the lower bound needs the scores to be nonnegative. -/
theorem detect_intensity_bounds (classify : String → HFData) (text : String)
    (r : EmotionResult)
    (hn : dataNonneg (classify (pyClean text)) = true)
    (h : detect classify text = .ok r) :
    0 ≤ r.intensity ∧ r.intensity ≤ 1 := by
  unfold detect at h
  by_cases hb : text = "" ∨ pyStrip text = ""
  · rw [if_pos hb] at h
    obtain rfl : (⟨.neutral, 0⟩ : EmotionResult) = r := Except.ok.inj h
    exact ⟨le_refl _, zero_le_one⟩
  · rw [if_neg hb] at h
    split at h
    · cases h
    next items heq =>
      split at h
      · cases h
      next m heq2 =>
        obtain rfl : normalizeScores m (pyClean text) = r := Except.ok.inj h
        refine normalizeScores_intensity_bounds ?_ _
        apply flatScores_nonneg ?_ heq2
        rw [heq] at hn
        simpa [dataNonneg] using hn

/-- A classifier returning a single well-formed positive score. -/
def goodClassify : String → HFData := fun _ =>
  .arr [ .leaf (.obj ⟨some "positive", some (mkRat 9 10)⟩) ]

/-- Witness for C4 (amended) at the input `"great!"`. -/
theorem detect_intensity_bounds_witness :
    dataNonneg (goodClassify (pyClean "great!")) = true ∧
    detect goodClassify "great!" = .ok ⟨.positive, 24/25⟩ ∧
    0 ≤ ((24 : ℚ)/25) ∧ ((24 : ℚ)/25) ≤ 1 := by
  have heval : detect goodClassify "great!" = .ok ⟨.positive, 24/25⟩ := by
    have hdetect : detect goodClassify "great!" =
        .ok (normalizeScores [("positive", mkRat 9 10)] "great!") := by
      unfold detect
      rw [if_neg (by decide), show pyClean "great!" = "great!" from by decide]
      rfl
    rw [hdetect]
    simp only [normalizeScores]
    rw [show getScore [("positive", mkRat 9 10)] "positive" "label_2" =
        mkRat 9 10 from by decide,
      show getScore [("positive", mkRat 9 10)] "neutral" "label_1" =
        0 from by decide,
      show getScore [("positive", mkRat 9 10)] "negative" "label_0" =
        0 from by decide,
      show selectWinner (mkRat 9 10) 0 0 = (.positive, mkRat 9 10) from by decide,
      show "great!".toList.count '!' = 1 from by decide,
      show "great!".toList.contains '?' = false from by decide,
      show emphasisCount "great!" = 0 from by decide]
    norm_num [Rat.mkRat_eq_div]
  have hnn : dataNonneg (goodClassify (pyClean "great!")) = true := by decide
  have hbounds := detect_intensity_bounds goodClassify "great!"
    ⟨.positive, 24/25⟩ hnn heval
  exact ⟨hnn, heval, hbounds.1, hbounds.2⟩

/-! ## Voice profiles and parameter modulation (`config.py`, `service.py`) -/

/-- `VoiceProfile` dataclass from `config.py`. -/
structure VoiceProfile where
  label : String
  rate : ℤ
  volume : ℚ
  pitch : Option ℤ := none
  rate_delta_range : ℤ × ℤ := (0, 0)
  volume_delta_range : ℚ × ℚ := (0, 0)
  pitch_delta_range : Option (ℤ × ℤ) := none
deriving DecidableEq, Repr

/-- The `"positive"` profile of `service._default_mapping`. -/
def positiveProfile : VoiceProfile :=
  { label := "positive", rate := 186, volume := (95 : ℚ)/100, pitch := some 70,
    rate_delta_range := (0, 45), volume_delta_range := (0, (12 : ℚ)/100),
    pitch_delta_range := some (0, 12) }

/-- The `"neutral"` profile of `service._default_mapping`. -/
def neutralProfile : VoiceProfile :=
  { label := "neutral", rate := 175, volume := (88 : ℚ)/100, pitch := some 64,
    rate_delta_range := (-5, 5), volume_delta_range := (-(4 : ℚ)/100, (4 : ℚ)/100),
    pitch_delta_range := some (-3, 4) }

/-- The `"negative"` profile of `service._default_mapping`. -/
def negativeProfile : VoiceProfile :=
  { label := "negative", rate := 160, volume := (8 : ℚ)/10, pitch := some 58,
    rate_delta_range := (0, -40), volume_delta_range := (0, -(15 : ℚ)/100),
    pitch_delta_range := some (0, -12) }

/-- `service._default_mapping` as a total lookup on the three labels. -/
def default_mapping : EmotionLabel → VoiceProfile
  | .positive => positiveProfile
  | .neutral => neutralProfile
  | .negative => negativeProfile

/-- `EmpathyEngine._modulate_parameters`. -/
def modulate_parameters (profile : VoiceProfile) (emotion : EmotionResult) :
    ℤ × ℚ × Option ℤ :=
  let intensity := emotion.intensity
  let rate_delta := interpolate
    ((profile.rate_delta_range.1 : ℚ), (profile.rate_delta_range.2 : ℚ)) intensity
  let volume_delta := interpolate profile.volume_delta_range intensity
  let modulated_rate : ℤ := max 120 (pyRound ((profile.rate : ℚ) + rate_delta))
  let modulated_volume : ℚ := max (3/10) (min 1 (profile.volume + volume_delta))
  let pitch : Option ℤ :=
    match profile.pitch, profile.pitch_delta_range with
    | some p, some pr =>
      some (max 30 (pyRound ((p : ℚ) + interpolate ((pr.1 : ℚ), (pr.2 : ℚ)) intensity)))
    | p, _ => p
  (modulated_rate, modulated_volume, pitch)

/-! ## Claim C5 -/

/-- A profile with a baseline pitch but no pitch delta range. -/
def noRangeProfile : VoiceProfile :=
  { label := "positive", rate := 186, volume := (95 : ℚ)/100, pitch := some 70,
    rate_delta_range := (0, 45), volume_delta_range := (0, (12 : ℚ)/100),
    pitch_delta_range := none }

/-- Counterexample to C5 as stated: when the profile defines a baseline
pitch but no pitch delta range, `_modulate_parameters` keeps the baseline
pitch in the result — the pitch is present, not absent. -/
theorem modulate_pitch_present_cex :
    noRangeProfile.pitch_delta_range = none ∧
    (modulate_parameters noRangeProfile ⟨.positive, 1⟩).2.2 = some 70 :=
  ⟨rfl, rfl⟩

/-- C5 amended: the modulated rate is always ≥ 120 and the modulated
volume always lies in `[0.3, 1]`; when the profile defines both a
baseline pitch and a pitch delta range the resulting pitch is present and
≥ 30; when the baseline pitch is missing the pitch is absent; but when
the baseline pitch is present and only the delta range is missing the
result keeps the baseline pitch unmodified (it is not absent, and it is
not clamped to 30). -/
theorem modulate_parameters_bounds (profile : VoiceProfile) (e : EmotionResult)
    (_h0 : 0 ≤ e.intensity) (_h1 : e.intensity ≤ 1) :
    120 ≤ (modulate_parameters profile e).1 ∧
    3/10 ≤ (modulate_parameters profile e).2.1 ∧
    (modulate_parameters profile e).2.1 ≤ 1 ∧
    (∀ bp lo hi, profile.pitch = some bp →
      profile.pitch_delta_range = some (lo, hi) →
      ∃ q, (modulate_parameters profile e).2.2 = some q ∧ 30 ≤ q) ∧
    (profile.pitch = none → (modulate_parameters profile e).2.2 = none) ∧
    (∀ bp, profile.pitch = some bp → profile.pitch_delta_range = none →
      (modulate_parameters profile e).2.2 = some bp) := by
  simp only [modulate_parameters]
  refine ⟨le_max_left _ _, le_max_left _ _,
    max_le (by norm_num) (min_le_left _ _), ?_, ?_, ?_⟩
  · intro bp lo hi hp hr
    rw [hp, hr]
    exact ⟨_, rfl, le_max_left _ _⟩
  · intro hp
    rw [hp]
  · intro bp hp hr
    rw [hp, hr]

/-- Witness for C5 (amended) on the positive profile at full intensity. -/
theorem modulate_parameters_bounds_witness :
    (0 ≤ (1 : ℚ) ∧ (1 : ℚ) ≤ 1) ∧
    120 ≤ (modulate_parameters positiveProfile ⟨.positive, 1⟩).1 ∧
    3/10 ≤ (modulate_parameters positiveProfile ⟨.positive, 1⟩).2.1 ∧
    (modulate_parameters positiveProfile ⟨.positive, 1⟩).2.1 ≤ 1 := by
  have h := modulate_parameters_bounds positiveProfile ⟨.positive, 1⟩
    (by norm_num) (by norm_num)
  exact ⟨⟨by norm_num, by norm_num⟩, h.1, h.2.1, h.2.2.1⟩

/-! ## SSML composition (`ssml.py`) -/

lemma ratFloor_eq_floor (q : ℚ) : ratFloor q = ⌊q⌋ := by
  rw [Rat.floor_def]
  exact Int.fdiv_eq_ediv q.num (Int.natCast_nonneg q.den)

lemma pyRound_of_floor_of_lt {q : ℚ} {z : ℤ} (hf : ⌊q⌋ = z)
    (hr : q - z < 1/2) : pyRound q = z := by
  simp only [pyRound, ratFloor_eq_floor, hf]
  rw [if_pos hr]

/-- `ssml._rate_percentage`. -/
def rate_percentage (baseline : ℤ) (applied : ℤ) : ℤ :=
  if baseline ≤ 0 then 100
  else max 50 (min 200 (pyRound ((applied : ℚ) / (baseline : ℚ) * 100)))

/-- `ssml._volume_descriptor`. -/
def volume_descriptor (volume : ℚ) : String :=
  if volume ≥ (95 : ℚ)/100 then "x-loud"
  else if volume ≥ (85 : ℚ)/100 then "loud"
  else if volume ≥ (7 : ℚ)/10 then "medium"
  else if volume ≥ (5 : ℚ)/10 then "soft"
  else "x-soft"

/-- `ssml._pitch_step`. -/
def pitch_step (profile_pitch applied_pitch : Option ℤ) : String :=
  match profile_pitch, applied_pitch with
  | some p, some a =>
    let offset := a - p
    if offset = 0 then "default"
    else
      let semitone := max (-20) (min 20 offset)
      (if semitone > 0 then "+" else "") ++ toString semitone ++ "st"
  | _, _ => "default"

/-- Python `html.escape` on one character. -/
def htmlEscapeChar (c : Char) : List Char :=
  if c = '&' then "&amp;".toList
  else if c = '<' then "&lt;".toList
  else if c = '>' then "&gt;".toList
  else if c = '"' then "&quot;".toList
  else if c = Char.ofNat 39 then "&#x27;".toList
  else [c]

/-- Python `html.escape`. -/
def htmlEscape (s : String) : String :=
  ⟨(s.toList.map htmlEscapeChar).flatten⟩

/-- The emphasis wrapper chosen by `SSMLComposer.build`. -/
inductive EmphasisLevel where
  | strong
  | moderate
  | noEmphasis
deriving DecidableEq, Repr

/-- The pause element appended by `SSMLComposer.build`. -/
inductive SSMLPause where
  | noBreak
  | timedBreak (time : String)
  | strengthBreak (strength : String)
deriving DecidableEq, Repr

/-- The SSML document produced by `SSMLComposer.build`: the prosody
attributes, the emphasis level, the escaped text, and the pause marker. -/
structure SSMLDoc where
  rateAttr : String
  volumeAttr : String
  pitchAttr : Option String
  emphasis : EmphasisLevel
  textContent : String
  pause : SSMLPause
deriving DecidableEq, Repr

/-- `SSMLComposer.build`. -/
def build (text : String) (emotion : EmotionResult) (profile : VoiceProfile)
    (applied_rate : ℤ) (applied_volume : ℚ) (applied_pitch : Option ℤ) :
    SSMLDoc :=
  let safe_text := htmlEscape (pyStrip text)
  let pitch_descriptor := pitch_step profile.pitch applied_pitch
  { rateAttr := toString (rate_percentage profile.rate applied_rate) ++ "%"
    volumeAttr := volume_descriptor applied_volume
    pitchAttr := if pitch_descriptor = "default" then none else some pitch_descriptor
    emphasis :=
      if emotion.intensity ≥ (65 : ℚ)/100 then .strong
      else if emotion.intensity ≥ (35 : ℚ)/100 then .moderate
      else .noEmphasis
    textContent := safe_text
    pause :=
      if emotion.label = .negative then .timedBreak "250ms"
      else if emotion.label = .positive ∧ emotion.intensity ≥ (5 : ℚ)/10 then
        .strengthBreak "medium"
      else .noBreak }

/-! ## Claim C7 -/

/-- C7: the positive profile at intensity 1 modulates to rate 231, volume
1 and pitch 82, and the SSML built from those applied parameters carries
prosody attributes rate `"124%"`, volume `"x-loud"` and pitch `"+12st"`
(for every input text). -/
theorem positive_full_intensity_values (text : String) :
    modulate_parameters positiveProfile ⟨.positive, 1⟩ = (231, 1, some 82) ∧
    (build text ⟨.positive, 1⟩ positiveProfile 231 1 (some 82)).rateAttr = "124%" ∧
    (build text ⟨.positive, 1⟩ positiveProfile 231 1 (some 82)).volumeAttr = "x-loud" ∧
    (build text ⟨.positive, 1⟩ positiveProfile 231 1 (some 82)).pitchAttr = some "+12st" := by
  have hp231 : pyRound (231 : ℚ) = 231 :=
    pyRound_of_floor_of_lt (by rw [Int.floor_eq_iff] <;> norm_num) (by norm_num)
  have hp82 : pyRound (82 : ℚ) = 82 :=
    pyRound_of_floor_of_lt (by rw [Int.floor_eq_iff] <;> norm_num) (by norm_num)
  have hp124 : pyRound (((231 : ℤ) : ℚ) / ((186 : ℤ) : ℚ) * 100) = 124 := by
    rw [show ((231 : ℤ) : ℚ) / ((186 : ℤ) : ℚ) * 100 = (3850 : ℚ)/31 from by
      push_cast; norm_num]
    exact pyRound_of_floor_of_lt (by rw [Int.floor_eq_iff] <;> norm_num) (by norm_num)
  have hrp : rate_percentage 186 231 = 124 := by
    unfold rate_percentage
    rw [if_neg (by norm_num), hp124]
    norm_num [max_def, min_def]
  have hvd : volume_descriptor 1 = "x-loud" := by
    unfold volume_descriptor
    rw [if_pos (by norm_num)]
  have hps : pitch_step (some 70) (some 82) = "+12st" := by decide
  refine ⟨?_, ?_, ?_, ?_⟩
  · have h1 : (modulate_parameters positiveProfile ⟨.positive, 1⟩).1 = 231 := by
      simp only [modulate_parameters, positiveProfile, interpolate]
      rw [show ((186 : ℤ) : ℚ) + (((0 : ℤ) : ℚ) + (((45 : ℤ) : ℚ) - ((0 : ℤ) : ℚ)) * 1) =
        (231 : ℚ) from by push_cast; norm_num]
      rw [hp231]
      norm_num [max_def]
    have h2 : (modulate_parameters positiveProfile ⟨.positive, 1⟩).2.1 = 1 := by
      simp only [modulate_parameters, positiveProfile, interpolate]
      norm_num [max_def, min_def]
    have h3 : (modulate_parameters positiveProfile ⟨.positive, 1⟩).2.2 = some 82 := by
      simp only [modulate_parameters, positiveProfile, interpolate]
      rw [show ((70 : ℤ) : ℚ) + (((0 : ℤ) : ℚ) + (((12 : ℤ) : ℚ) - ((0 : ℤ) : ℚ)) * 1) =
        (82 : ℚ) from by push_cast; norm_num]
      rw [hp82]
      norm_num [max_def]
    exact Prod.ext h1 (Prod.ext h2 h3)
  · simp only [build, positiveProfile]
    rw [hrp]
    decide
  · simp only [build]
    rw [hvd]
  · simp only [build, positiveProfile]
    rw [hps]
    decide

/-! ## Claim C8 -/

/-- C8: the built SSML carries the 250ms timed pause exactly when the
emotion label is negative (whatever the intensity), the medium-strength
pause exactly when the label is positive and the intensity is ≥ 0.5, and
no pause otherwise. -/
theorem build_pause_spec (text : String) (profile : VoiceProfile)
    (applied_rate : ℤ) (applied_volume : ℚ) (applied_pitch : Option ℤ)
    (emotion : EmotionResult) :
    ((build text emotion profile applied_rate applied_volume applied_pitch).pause =
        .timedBreak "250ms" ↔ emotion.label = .negative) ∧
    ((build text emotion profile applied_rate applied_volume applied_pitch).pause =
        .strengthBreak "medium" ↔
        (emotion.label = .positive ∧ (5 : ℚ)/10 ≤ emotion.intensity)) ∧
    ((build text emotion profile applied_rate applied_volume applied_pitch).pause =
        .noBreak ↔
        (emotion.label ≠ .negative ∧
          ¬(emotion.label = .positive ∧ (5 : ℚ)/10 ≤ emotion.intensity))) := by
  simp only [build]
  split_ifs with hneg hpos <;>
    simp_all [ge_iff_le]

/-! ## Speech synthesis driver state (`speech.py`) -/

/-- The mutable engine-global properties of the pyttsx3 driver. -/
structure EngineState where
  rate : ℤ
  volume : ℚ
  pitch : ℤ
deriving DecidableEq, Repr

/-- `SpeechSynthesizer.synthesize`: apply the per-call overrides to the
engine state, render (possibly raising), and on the non-raising path set
rate and volume back to the construction-time defaults.  `default_rate`
and `default_volume` are the values captured in `__init__`;
`render_fails` models `runAndWait` raising.  The state the call leaves
behind is returned alongside the result. -/
def synthesize (default_rate : ℤ) (default_volume : ℚ) (render_fails : Bool)
    (rate : Option ℤ) (volume : Option ℚ) (pitch : Option ℤ)
    (st : EngineState) : Except String Unit × EngineState :=
  let st1 := match rate with
    | some r => { st with rate := r }
    | none => st
  let st2 := match volume with
    | some v => { st1 with volume := max 0 (min 1 v) }
    | none => st1
  let st3 := match pitch with
    | some q => { st2 with pitch := q }
    | none => st2
  if render_fails then (.error "render failed", st3)
  else (.ok (), { st3 with rate := default_rate, volume := default_volume })

/-! ## Claim C9 -/

/-- C9 is violated by the code: `synthesize` restores rate and volume only
on the non-raising path and never restores pitch.  Starting from the
default state `⟨200, 9/10, 50⟩` and overriding with rate 231, volume 1 and
pitch 82: a successful render leaves pitch at 82 (not the pre-call 50),
and a raising render leaves rate 231 and volume 1 in place as well. -/
theorem synthesize_no_restore :
    (synthesize 200 (9/10) false (some 231) (some 1) (some 82)
        ⟨200, 9/10, 50⟩).2 = ⟨200, 9/10, 82⟩ ∧
    (⟨200, 9/10, 82⟩ : EngineState).pitch ≠ (⟨200, 9/10, 50⟩ : EngineState).pitch ∧
    (synthesize 200 (9/10) true (some 231) (some 1) (some 82)
        ⟨200, 9/10, 50⟩).2 = ⟨231, 1, 82⟩ ∧
    (⟨231, 1, 82⟩ : EngineState).rate ≠ (⟨200, 9/10, 50⟩ : EngineState).rate := by
  refine ⟨?_, by decide, ?_, by decide⟩
  · simp only [synthesize]
    norm_num [max_def, min_def]
  · simp only [synthesize]
    norm_num [max_def, min_def]
